import Mathlib

/-!
Verification of the NMOS IS-04 node behaviour agent (nmos-cpp,
`nmos/node_behaviour.cpp`): a shallow embedding of the discovery and
registration state machine, the change-event grain drain protocol, the
registration HTTP client, and the peer-to-peer version counters, together
with theorems settling the frozen claims about this code.

Conventions of the embedding:
- machine integers (HTTP status codes, priorities, counters) are `Nat`;
- the settings fields driving the discovery backoff (C++ `double`) are `Rat`,
  since the claims concern which update happens when, not float rounding;
- HTTP traffic is modelled by response oracles: a request sequence issued for
  one event consumes statuses from a function `Nat → HttpOutcome`, and a drain
  consumes one oracle per request-issuing event from `Nat → Nat → HttpOutcome`;
- C++ exceptions (`web::http::http_exception`, `registration_service_exception`)
  are `Except Unit`.
-/

namespace Nmos

/-- Resource event kinds as used by `get_resource_event_type`:
`resource_added_event`, `resource_removed_event`, `resource_modified_event`
and `resource_unchanged_event` (the latter is the `sync` kind emitted when
first interacting with a registry).  The source computes the kind from the
presence of the event's `pre`/`post` payloads (code outside `src/`); here the
event carries its kind directly. -/
inductive ResourceEventType where
  | added
  | removed
  | modified
  | unchanged
deriving DecidableEq

/-- Resource types distinguished by `nmos::types`. -/
inductive NmosType where
  | node
  | device
  | source
  | flow
  | sender
  | receiver
  | unknown
deriving DecidableEq

/-- A resource event held in the node behaviour grain.  `path` is
"<resource-type-plural>/<id>" as in the source's event JSON; `post` stands for
the serialised resource payload carried by the event (used as the POST body). -/
structure ResourceEvent where
  path : String
  eventType : ResourceEventType
  post : String
deriving DecidableEq

/-- `nmos::type_from_resourceType` (declared in `nmos/api_utils.h`, outside
`src/`): maps the plural path segment to the resource type. -/
def type_from_resourceType (resourceType : String) : NmosType :=
  if resourceType = "nodes" then NmosType.node
  else if resourceType = "devices" then NmosType.device
  else if resourceType = "sources" then NmosType.source
  else if resourceType = "flows" then NmosType.flow
  else if resourceType = "senders" then NmosType.sender
  else if resourceType = "receivers" then NmosType.receiver
  else NmosType.unknown

/-- Split a character list at the first '/': returns the segment before it and
the remainder after it.  Mirrors `path.find('/')` + `substr` in
`get_node_behaviour_event_id_type` (the source asserts a slash is present). -/
def splitAtSlash : List Char → List Char × List Char
  | [] => ([], [])
  | c :: cs =>
    if c = '/' then ([], cs)
    else
      let rest := splitAtSlash cs
      (c :: rest.1, rest.2)

/-- `details::get_node_behaviour_event_id_type`: from the event's `path`
"<resourceType>/<id>", return the pair (id, type). -/
def get_node_behaviour_event_id_type (event : ResourceEvent) : String × NmosType :=
  let split := splitAtSlash event.path.data
  (String.mk split.2, type_from_resourceType (String.mk split.1))

/-! ## Registration services (the priority multimap) -/

/-- The `std::multimap<service_priority, web::uri>` of discovered Registration
APIs, in its in-memory order: sorted by priority, equal priorities in
insertion order. -/
abbrev RegistrationServices := List (Nat × String)

/-- `std::multimap::insert`: place the new entry at the upper bound of its
equivalence class, i.e. after every entry whose priority is less than or equal
to the new entry's priority (so equal priorities keep insertion order). -/
def multimap_insert (entry : Nat × String) : RegistrationServices → RegistrationServices
  | [] => [entry]
  | e :: rest =>
    if e.1 ≤ entry.1 then e :: multimap_insert entry rest
    else entry :: e :: rest

/-- A multimap built by inserting the given entries in order into an empty map. -/
def multimap_of_entries (entries : List (Nat × String)) : RegistrationServices :=
  entries.foldl (fun l e => multimap_insert e l) []

/-- The pairwise "sorted by priority" invariant of a `std::multimap`'s
in-memory order. -/
def SortedByPriority (l : RegistrationServices) : Prop :=
  List.Pairwise (fun a b => a.1 ≤ b.1) l

/-- `details::top_registration_service`: "The Node selects a Registration API
to use based on the priority".  The source dereferences `begin()` without an
emptiness check; the embedding is total and returns `none` exactly on the
undefined-behaviour branch (see the C10 theorem). -/
def top_registration_service (registration_services : RegistrationServices) : Option String :=
  registration_services.head?.map Prod.snd

/-- `details::pop_registration_service`: erase `begin()`, i.e. remove the
first (minimum-priority, earliest-inserted) entry. -/
def pop_registration_service (registration_services : RegistrationServices) : RegistrationServices :=
  registration_services.tail

/-! ## The node behaviour grain and its drain guard -/

/-- The node behaviour grain: the pending change-event buffer
(`message_grain_data`) plus the `updated` watermark. -/
structure Grain where
  buffer : List ResourceEvent
  updated : Nat
deriving DecidableEq

/-- `nmos::strictly_increasing_update` returns a timestamp strictly greater
than the most recent update of any resource; abstracted here to the successor
of the grain's own watermark. -/
def strictly_increasing_update (updated : Nat) : Nat :=
  updated + 1

/-- Constructor of `details::node_behaviour_grain_guard`: steal the events
from the grain by swapping them with the caller's local buffer and bump the
grain's `updated` watermark.  Returns the new local buffer and the new grain. -/
def node_behaviour_grain_guard_acquire (events : List ResourceEvent) (grain : Grain) :
    List ResourceEvent × Grain :=
  (grain.buffer, { buffer := events, updated := strictly_increasing_update grain.updated })

/-- Destructor of `details::node_behaviour_grain_guard`: if any local events
remain they are restored to the grain — each event that arrived in the grain
meanwhile is appended to the local remainder, the result is swapped back into
the grain, and the watermark is bumped.  If no local events remain the grain
is left untouched. -/
def node_behaviour_grain_guard_release (events : List ResourceEvent) (grain : Grain) : Grain :=
  if events.length = 0 then grain
  else { buffer := events ++ grain.buffer, updated := strictly_increasing_update grain.updated }

/-! ## HTTP and the registration client -/

/-- The outcome of one HTTP request as observed by the node: a status code, or
a `web::http::http_exception` (connection failure, timeout, ...). -/
inductive HttpOutcome where
  | status (code : Nat)
  | connectionFailure
deriving DecidableEq

inductive HttpMethod where
  | post
  | del
deriving DecidableEq

/-- `details::make_registration_request_body`: the `{type, data}` body of a
registration POST (the version downgrade applied to `data` is external to the
core and not modelled; `data` stands for the event's `post` payload). -/
structure RegistrationRequestBody where
  type : NmosType
  data : String
deriving DecidableEq

/-- One HTTP request issued on the Registration API. -/
structure Request where
  method : HttpMethod
  path : String
  body : Option RegistrationRequestBody
deriving DecidableEq

/-- `web::http::is_server_error_status_code` (cpprest): 5xx. -/
def is_server_error_status_code (code : Nat) : Bool :=
  500 ≤ code && code < 600

/-- `web::http::is_client_error_status_code` (cpprest): 4xx. -/
def is_client_error_status_code (code : Nat) : Bool :=
  400 ≤ code && code < 500

/-- `details::handle_registration_error_conditions`: called when an error
condition has been identified.  A server-side (5xx) status throws
`registration_service_exception`; client (4xx) and unexpected statuses are
only logged. -/
def handle_registration_error_conditions (code : Nat) : Except Unit Unit :=
  if is_server_error_status_code code then Except.error ()
  else Except.ok ()

instance : DecidableEq (Except Unit Unit) := fun a b =>
  match a, b with
  | Except.ok (), Except.ok () => Decidable.isTrue rfl
  | Except.error (), Except.error () => Decidable.isTrue rfl
  | Except.ok (), Except.error () => Decidable.isFalse (fun h => Except.noConfusion h)
  | Except.error (), Except.ok () => Decidable.isFalse (fun h => Except.noConfusion h)

/-- The result of `details::request_registration` for one event: the requests
put on the wire, in order, and whether the task completed normally (`ok`) or
faulted with `http_exception`/`registration_service_exception` (`error`),
which the callers handle by setting `registration_service_error`. -/
structure RegistrationResult where
  trace : List Request
  outcome : Except Unit Unit
deriving DecidableEq

/-- `details::request_registration`: make a POST or DELETE on the Registration
API for the given resource event.  An `added`/`sync` event is a creation
(POST `/resource`, 201 expected; on 200 the stale registration is DELETEd and
the POST retried once); a `modified` event is an update (POST `/resource`,
200 expected); a `removed` event is a deletion (DELETE `/resource/<path>`, 204
expected).  `resp i` is the outcome of the i-th request issued for this
event. -/
def request_registration (event : ResourceEvent) (resp : Nat → HttpOutcome) :
    RegistrationResult :=
  let id_type := get_node_behaviour_event_id_type event
  let body : RegistrationRequestBody := { type := id_type.2, data := event.post }
  let post_resource : Request := { method := HttpMethod.post, path := "/resource", body := some body }
  let delete_resource : Request :=
    { method := HttpMethod.del, path := "/resource/" ++ event.path, body := none }
  let creation := event.eventType = ResourceEventType.added
    ∨ event.eventType = ResourceEventType.unchanged
  if creation then
    match resp 0 with
    | HttpOutcome.connectionFailure => { trace := [post_resource], outcome := Except.error () }
    | HttpOutcome.status s1 =>
      if s1 = 201 then
        -- "Registration created": the final continuation sees 201 and only logs
        { trace := [post_resource], outcome := Except.ok () }
      else if s1 = 200 then
        -- "a previous record of the Node can be assumed to still exist":
        -- DELETE the resource path, then re-request the creation once
        match resp 1 with
        | HttpOutcome.connectionFailure =>
          { trace := [post_resource, delete_resource], outcome := Except.error () }
        | HttpOutcome.status sd =>
          match (if sd = 204 then Except.ok () else handle_registration_error_conditions sd) with
          | Except.error e =>
            { trace := [post_resource, delete_resource], outcome := Except.error e }
          | Except.ok _ =>
            match resp 2 with
            | HttpOutcome.connectionFailure =>
              { trace := [post_resource, delete_resource, post_resource]
                outcome := Except.error () }
            | HttpOutcome.status s2 =>
              if s2 = 201 then
                { trace := [post_resource, delete_resource, post_resource]
                  outcome := Except.ok () }
              else
                { trace := [post_resource, delete_resource, post_resource]
                  outcome := handle_registration_error_conditions s2 }
      else
        { trace := [post_resource], outcome := handle_registration_error_conditions s1 }
  else if event.eventType = ResourceEventType.modified then
    match resp 0 with
    | HttpOutcome.connectionFailure => { trace := [post_resource], outcome := Except.error () }
    | HttpOutcome.status s =>
      if s = 200 then { trace := [post_resource], outcome := Except.ok () }
      else { trace := [post_resource], outcome := handle_registration_error_conditions s }
  else if event.eventType = ResourceEventType.removed then
    match resp 0 with
    | HttpOutcome.connectionFailure => { trace := [delete_resource], outcome := Except.error () }
    | HttpOutcome.status s =>
      if s = 204 then { trace := [delete_resource], outcome := Except.ok () }
      else { trace := [delete_resource], outcome := handle_registration_error_conditions s }
  else
    -- probably an error to get here
    { trace := [], outcome := Except.ok () }

/-- `details::update_node_health`: POST `/health/nodes/<id>` and interpret the
response — 200 means registered (`true`), 404 means unregistered (`false`),
5xx or a connection failure faults, and any other status is logged and treated
as registered. -/
def update_node_health (outcome : HttpOutcome) : Except Unit Bool :=
  match outcome with
  | HttpOutcome.connectionFailure => Except.error ()
  | HttpOutcome.status s =>
    if s = 200 then Except.ok true
    else if s = 404 then Except.ok false
    else
      match handle_registration_error_conditions s with
      | Except.error e => Except.error e
      | Except.ok _ => Except.ok true

/-- A response outcome that the node's error handling treats as a server-side
or connectivity issue: a 5xx status, or a connection failure / timeout. -/
def server_side_error (outcome : HttpOutcome) : Bool :=
  match outcome with
  | HttpOutcome.connectionFailure => true
  | HttpOutcome.status c => is_server_error_status_code c

/-- Prepend one event-level response oracle to a drain-level oracle. -/
def oracle_cons (o : Nat → HttpOutcome) (os : Nat → Nat → HttpOutcome) :
    Nat → Nat → HttpOutcome :=
  fun i => if i = 0 then o else os (i - 1)

/-! ## The event drains of initial registration and registered operation

The inner `while (0 != events.size())` loops of `details::initial_registration`
and `details::registered_operation` process the locally swapped-out event
buffer.  `resp n` is the response oracle of the n-th request-issuing event. -/

/-- Result of the registered-operation drain loop: the local events still in
the buffer when the loop ends (restored to the grain by the guard), the
`registration_service_error` and `node_unregistered` flags, and the requests
issued. -/
structure DrainOut where
  remaining : List ResourceEvent
  error : Bool
  unregistered : Bool
  requests : List Request
deriving DecidableEq

/-- The inner event loop of `details::registered_operation` (lines 879-917):
while events remain and no flag is set, issue the registration request for the
front event; on success (or an ignored failure) discard it and — if it was the
`removed` event for the node's own resource — set `node_unregistered`; on
`http_exception`/`registration_service_exception` set
`registration_service_error`, keeping the event. -/
def registered_operation_drain (self_id : String) (shutdown : Bool)
    (resp : Nat → Nat → HttpOutcome) (error unregistered : Bool) :
    List ResourceEvent → DrainOut
  | [] => { remaining := [], error := error, unregistered := unregistered, requests := [] }
  | e :: rest =>
    if shutdown || error || unregistered then
      { remaining := e :: rest, error := error, unregistered := unregistered, requests := [] }
    else
      let r := request_registration e (resp 0)
      match r.outcome with
      | Except.error _ =>
        { remaining := e :: rest, error := true, unregistered := unregistered
          requests := r.trace }
      | Except.ok _ =>
        let id_type := get_node_behaviour_event_id_type e
        let unregistered' := unregistered ||
          (decide (self_id = id_type.1) && decide (e.eventType = ResourceEventType.removed))
        let next := registered_operation_drain self_id shutdown (fun i => resp (i + 1))
          error unregistered' rest
        { remaining := next.remaining, error := next.error, unregistered := next.unregistered
          requests := r.trace ++ next.requests }

/-- Result of the initial-registration drain loop: the value of `self_id`, the
`node_registered` and `registration_service_error` flags, the remaining local
events, and the requests issued. -/
structure InitRegDrainOut where
  self_id : String
  node_registered : Bool
  error : Bool
  remaining : List ResourceEvent
  requests : List Request
deriving DecidableEq

/-- The inner event loop of `details::initial_registration` (lines 713-758):
discard events until the first `added`/`sync` event for a `node` resource;
on that event latch `self_id` from its path and issue the registration
request; on success discard the event and set `node_registered` (subsequent
events are handled in registered operation); on a fault set
`registration_service_error`, keeping the event. -/
def initial_registration_drain (self_id : String) (shutdown : Bool)
    (resp : Nat → Nat → HttpOutcome) (error registered : Bool) :
    List ResourceEvent → InitRegDrainOut
  | [] =>
    { self_id := self_id, node_registered := registered, error := error
      remaining := [], requests := [] }
  | e :: rest =>
    if shutdown || error || registered then
      { self_id := self_id, node_registered := registered, error := error
        remaining := e :: rest, requests := [] }
    else
      let id_type := get_node_behaviour_event_id_type e
      if id_type.2 = NmosType.node ∧ (e.eventType = ResourceEventType.added
          ∨ e.eventType = ResourceEventType.unchanged) then
        -- self_id = id_type.first, then the blocking request
        let r := request_registration e (resp 0)
        match r.outcome with
        | Except.error _ =>
          { self_id := id_type.1, node_registered := registered, error := true
            remaining := e :: rest, requests := r.trace }
        | Except.ok _ =>
          let next := initial_registration_drain id_type.1 shutdown (fun i => resp (i + 1))
            error true rest
          { self_id := next.self_id, node_registered := next.node_registered
            error := next.error, remaining := next.remaining
            requests := r.trace ++ next.requests }
      else
        -- discard events prior to the node 'added' or 'sync' event
        initial_registration_drain self_id shutdown resp error registered rest

/-! ## The outer loops of registered operation and initial registration

One iteration of the `for (;;)` loop is modelled as a pure step; the
condition-variable wait is abstracted into the per-iteration inputs (the
events found in the grain and the response oracles).  Note that the source
never resets `registration_service_error` to `false` once set. -/

/-- Observable actions of `details::registered_operation`, in program order. -/
inductive Action where
  | syncHeartbeat (self_id : String)
  | startBackgroundHeartbeats
  | httpRequest (r : Request)
  | cancelBackgroundHeartbeats
deriving DecidableEq

/-- The mutable state threaded through the `registered_operation` loop. -/
structure RegOpState where
  services : RegistrationServices
  client : Option String
  error : Bool
  unregistered : Bool
deriving DecidableEq

/-- Per-iteration inputs: the events swapped out of the grain, the response
oracle for their requests, and the outcome the sync heartbeat would get if a
new client is created this iteration. -/
structure RegOpInput where
  events : List ResourceEvent
  resp : Nat → Nat → HttpOutcome
  heartbeat : HttpOutcome

/-- One iteration of the `for (;;)` loop of `details::registered_operation`
(lines 785-920).  If `registration_service_error` is set, pop the current
registration service and cancel the background heartbeats (the flag itself is
never cleared).  Break when shut down, out of services, or unregistered.
Otherwise select the top service; if its URI differs from the current
client's, block on one synchronous heartbeat and — when it reports the node
registered and no flag is set — start the background heartbeats.  Then drain
the grain events.  Returns `none` exactly on the branch where
`top_registration_service` would dereference the begin iterator of an empty
multimap; the Bool is true when the loop breaks. -/
def registered_operation_iteration (self_id : String) (shutdown : Bool)
    (inp : RegOpInput) (s : RegOpState) :
    Option (RegOpState × List Action × Bool) :=
  let services := if s.error then pop_registration_service s.services else s.services
  let popActions : List Action := if s.error then [Action.cancelBackgroundHeartbeats] else []
  if shutdown || services.isEmpty || s.unregistered then
    some ({ s with services := services }, popActions, true)
  else
    match top_registration_service services with
    | none => none
    | some base_uri =>
      if s.client ≠ some base_uri then
        -- "The first interaction with a new Registration API ... should be a
        -- heartbeat": block and wait for the first heartbeat response
        match update_node_health inp.heartbeat with
        | Except.error _ =>
          some ({ s with services := services, client := some base_uri, error := true },
            popActions ++ [Action.syncHeartbeat self_id], false)
        | Except.ok false =>
          some ({ s with services := services, client := some base_uri, unregistered := true },
            popActions ++ [Action.syncHeartbeat self_id], false)
        | Except.ok true =>
          if shutdown || s.error || s.unregistered then
            -- flags may still be set (they are never cleared): `continue`
            some ({ s with services := services, client := some base_uri },
              popActions ++ [Action.syncHeartbeat self_id], false)
          else
            let d := registered_operation_drain self_id shutdown inp.resp false false inp.events
            some ({ services := services, client := some base_uri
                    error := d.error, unregistered := d.unregistered },
              popActions ++ [Action.syncHeartbeat self_id, Action.startBackgroundHeartbeats]
                ++ d.requests.map Action.httpRequest, false)
      else
        let d := registered_operation_drain self_id shutdown inp.resp s.error s.unregistered
          inp.events
        some ({ s with services := services, error := d.error, unregistered := d.unregistered },
          popActions ++ d.requests.map Action.httpRequest, false)

/-- Run `details::registered_operation` over a list of per-iteration inputs
(each input stands for one wake-up of the foreground loop).  On break, the
function cancels the background heartbeats before returning (lines 922-926). -/
def registered_operation_loop (self_id : String) (shutdown : Bool) :
    List RegOpInput → RegOpState → Option (RegOpState × List Action)
  | [], s => some (s, [])
  | inp :: rest, s =>
    match registered_operation_iteration self_id shutdown inp s with
    | none => none
    | some (s', actions, brk) =>
      if brk then some (s', actions ++ [Action.cancelBackgroundHeartbeats])
      else
        match registered_operation_loop self_id shutdown rest s' with
        | none => none
        | some (s'', actions') => some (s'', actions ++ actions')

/-- The mutable state threaded through the `initial_registration` loop. -/
structure InitRegState where
  services : RegistrationServices
  client : Option String
  error : Bool
  registered : Bool
  self_id : String
deriving DecidableEq

/-- One iteration of the `for (;;)` loop of `details::initial_registration`
(lines 690-761): pop the current service on error (the flag is never
cleared), break when shut down, out of services, or registered; otherwise
select the top service, create a client for it if needed, and drain.
Returns `none` exactly on the empty-multimap dereference branch; the Bool is
true when the loop breaks. -/
def initial_registration_iteration (shutdown : Bool) (inp : RegOpInput)
    (s : InitRegState) : Option (InitRegState × List Request × Bool) :=
  let services := if s.error then pop_registration_service s.services else s.services
  if shutdown || services.isEmpty || s.registered then
    some ({ s with services := services }, [], true)
  else
    match top_registration_service services with
    | none => none
    | some base_uri =>
      let d := initial_registration_drain s.self_id shutdown inp.resp s.error s.registered
        inp.events
      some ({ services := services, client := some base_uri, error := d.error
              registered := d.node_registered, self_id := d.self_id },
        d.requests, false)

/-! ## The node behaviour state machine -/

/-- The five modes of `node_behaviour_thread`. -/
inductive Mode where
  | initial_discovery
  | initial_registration
  | registered_operation
  | rediscovery
  | peer_to_peer_operation
deriving DecidableEq

/-- The settings fields read by the state machine. -/
structure Settings where
  discovery_backoff_min : Rat
  discovery_backoff_max : Rat
  discovery_backoff_factor : Rat
deriving DecidableEq

/-- The mode switch of `node_behaviour_thread` (lines 191-277): each case runs
its operation and then picks the next mode from whether the registration
service list is non-empty afterwards. -/
def node_behaviour_transition (mode : Mode) (services_nonempty : Bool) : Mode :=
  match mode with
  | Mode.initial_discovery =>
    if services_nonempty then Mode.initial_registration else Mode.peer_to_peer_operation
  | Mode.initial_registration =>
    if services_nonempty then Mode.registered_operation else Mode.initial_discovery
  | Mode.registered_operation =>
    if services_nonempty then Mode.initial_registration else Mode.rediscovery
  | Mode.rediscovery =>
    if services_nonempty then Mode.registered_operation else Mode.peer_to_peer_operation
  | Mode.peer_to_peer_operation =>
    if services_nonempty then Mode.initial_registration else Mode.peer_to_peer_operation

/-- The `initial_discovery` case of `node_behaviour_thread` (lines 193-219):
wait `discovery_backoff` seconds (the wait is skipped when the backoff is 0),
browse for registration services; when some are found, enter
`initial_registration` and set
`discovery_backoff := min (max min (backoff * factor)) max`; when none are
found, enter `peer_to_peer_operation` with the backoff unchanged.  Returns
(waited seconds, next mode, next backoff). -/
def initial_discovery_case (settings : Settings) (discovery_backoff : Rat)
    (discovered : RegistrationServices) : Rat × Mode × Rat :=
  let waited := if discovery_backoff = 0 then 0 else discovery_backoff
  if ¬ discovered.isEmpty then
    (waited, Mode.initial_registration,
      min (max settings.discovery_backoff_min (discovery_backoff * settings.discovery_backoff_factor))
        settings.discovery_backoff_max)
  else
    (waited, Mode.peer_to_peer_operation, discovery_backoff)

/-- The `initial_registration` case of `node_behaviour_thread` (lines
221-235): when services remain after `details::initial_registration` returns,
enter `registered_operation` and reset the backoff to 0; otherwise return to
`initial_discovery` with the backoff unchanged. -/
def initial_registration_case (discovery_backoff : Rat)
    (services_after : RegistrationServices) : Mode × Rat :=
  if ¬ services_after.isEmpty then (Mode.registered_operation, 0)
  else (Mode.initial_discovery, discovery_backoff)

/-! ## Peer-to-peer operation -/

/-- `nmos::api_resource_versions`: the per-type version counters published as
the `ver_` TXT records.  Modelled from the spec: the struct itself is
declared outside `src/`; its counters are non-negative integers starting at
zero (spec section 3 and scenario 6). -/
structure api_resource_versions where
  self : Nat
  devices : Nat
  sources : Nat
  flows : Nat
  senders : Nat
  receivers : Nat
deriving DecidableEq

/-- `details::update_resource_version`: increment the counter of the event's
resource type. -/
def update_resource_version (ver : api_resource_versions) (type : NmosType) :
    api_resource_versions :=
  let v1 := if NmosType.node = type then { ver with self := ver.self + 1 } else ver
  let v2 := if NmosType.source = type then { v1 with sources := v1.sources + 1 } else v1
  let v3 := if NmosType.flow = type then { v2 with flows := v2.flows + 1 } else v2
  let v4 := if NmosType.device = type then { v3 with devices := v3.devices + 1 } else v3
  let v5 := if NmosType.sender = type then { v4 with senders := v4.senders + 1 } else v4
  if NmosType.receiver = type then { v5 with receivers := v5.receivers + 1 } else v5

/-- Componentwise order on the published version counters. -/
def ver_le (a b : api_resource_versions) : Prop :=
  a.self ≤ b.self ∧ a.devices ≤ b.devices ∧ a.sources ≤ b.sources
    ∧ a.flows ≤ b.flows ∧ a.senders ≤ b.senders ∧ a.receivers ≤ b.receivers

instance : DecidablePred (fun p : api_resource_versions × api_resource_versions => ver_le p.1 p.2) :=
  fun _ => by unfold ver_le; infer_instance

instance (a b : api_resource_versions) : Decidable (ver_le a b) := by
  unfold ver_le; infer_instance

/-- Fold one drained batch of grain events into the version counters, as the
main loop of `details::peer_to_peer_operation` does (lines 1021-1025). -/
def peer_to_peer_ver_after (ver : api_resource_versions)
    (events : List ResourceEvent) : api_resource_versions :=
  events.foldl (fun v e => update_resource_version v (get_node_behaviour_event_id_type e).2) ver

/-- The sequence of `ver_` TXT-record publications of one
`details::peer_to_peer_operation` invocation, given the drained event batches:
a fresh zero counter set is published on entry (line 977-978), then the
updated counters after each batch (line 1027). -/
def peer_to_peer_publications (batches : List (List ResourceEvent)) :
    List api_resource_versions :=
  List.scanl peer_to_peer_ver_after
    { self := 0, devices := 0, sources := 0, flows := 0, senders := 0, receivers := 0 } batches

/-- The `ver_` publications over a whole process lifetime: each entry of
`sessions` is the batch list of one `peer_to_peer_operation` invocation, and
each invocation constructs its counters afresh (`api_resource_versions ver;`
is a local, line 977). -/
def process_publications (sessions : List (List (List ResourceEvent))) :
    List api_resource_versions :=
  (sessions.map peer_to_peer_publications).flatten

/-! ## Helper lemmas -/

theorem multimap_insert_mem (entry x : Nat × String) :
    ∀ l : RegistrationServices, x ∈ multimap_insert entry l ↔ x = entry ∨ x ∈ l := by
  intro l
  induction l with
  | nil => simp [multimap_insert]
  | cons e rest ih =>
    by_cases h : e.1 ≤ entry.1
    · simp [multimap_insert, h, ih]
      tauto
    · simp [multimap_insert, h]

theorem multimap_insert_stable (entry : Nat × String) :
    ∀ l : RegistrationServices,
      multimap_insert entry l
        = l.takeWhile (fun q => decide (q.1 ≤ entry.1))
          ++ entry :: l.dropWhile (fun q => decide (q.1 ≤ entry.1)) := by
  intro l
  induction l with
  | nil => simp [multimap_insert]
  | cons e rest ih =>
    by_cases h : e.1 ≤ entry.1
    · simp [multimap_insert, h, List.takeWhile_cons, List.dropWhile_cons, ih]
    · simp [multimap_insert, h, List.takeWhile_cons, List.dropWhile_cons]

theorem multimap_insert_sorted (entry : Nat × String) :
    ∀ l : RegistrationServices, SortedByPriority l → SortedByPriority (multimap_insert entry l) := by
  intro l
  induction l with
  | nil => intro _; simp [multimap_insert, SortedByPriority]
  | cons e rest ih =>
    intro hs
    rw [SortedByPriority, List.pairwise_cons] at hs
    by_cases h : e.1 ≤ entry.1
    · rw [multimap_insert]
      simp only [h, if_true]
      rw [SortedByPriority, List.pairwise_cons]
      refine ⟨fun x hx => ?_, ih hs.2⟩
      rcases (multimap_insert_mem entry x rest).mp hx with hx | hx
      · exact hx ▸ h
      · exact hs.1 x hx
    · rw [multimap_insert]
      simp only [h, if_false]
      rw [SortedByPriority, List.pairwise_cons]
      refine ⟨fun x hx => ?_, ?_⟩
      · have hee : entry.1 ≤ e.1 := le_of_lt (lt_of_not_le h)
        rcases List.mem_cons.mp hx with hx | hx
        · exact hx ▸ hee
        · exact le_trans hee (hs.1 x hx)
      · exact List.pairwise_cons.mpr ⟨hs.1, hs.2⟩

theorem multimap_of_entries_sorted (entries : List (Nat × String)) :
    SortedByPriority (multimap_of_entries entries) := by
  rw [multimap_of_entries]
  have h : ∀ (es : List (Nat × String)) (l : RegistrationServices), SortedByPriority l →
      SortedByPriority (es.foldl (fun l e => multimap_insert e l) l) := by
    intro es
    induction es with
    | nil => intro l hl; simpa using hl
    | cons e rest ih =>
      intro l hl
      exact ih (multimap_insert e l) (multimap_insert_sorted e l hl)
  exact h entries [] (by simp [SortedByPriority])

theorem request_registration_first_server_error (ev : ResourceEvent)
    (resp : Nat → HttpOutcome) (h : server_side_error (resp 0) = true) :
    (request_registration ev resp).outcome = Except.error () := by
  cases h0 : resp 0 with
  | connectionFailure =>
    cases het : ev.eventType <;> simp [request_registration, het, h0]
  | status c =>
    rw [h0] at h
    have hc : 500 ≤ c ∧ c < 600 := by
      simpa [server_side_error, is_server_error_status_code] using h
    have hs : is_server_error_status_code c = true := by
      simp only [is_server_error_status_code, Bool.and_eq_true, decide_eq_true_eq]
      omega
    have h201 : ¬ c = 201 := by omega
    have h200 : ¬ c = 200 := by omega
    have h204 : ¬ c = 204 := by omega
    cases het : ev.eventType <;>
      simp [request_registration, het, h0, h201, h200, h204,
        handle_registration_error_conditions, hs]

theorem request_registration_first_client_error (ev : ResourceEvent)
    (resp : Nat → HttpOutcome) (c : Nat) (h : is_client_error_status_code c = true)
    (h0 : resp 0 = HttpOutcome.status c) :
    (request_registration ev resp).outcome = Except.ok () := by
  have hc : 400 ≤ c ∧ c < 500 := by
    simpa [is_client_error_status_code] using h
  have hns : is_server_error_status_code c = false := by
    simp only [is_server_error_status_code, Bool.and_eq_false_iff, decide_eq_false_iff_not]
    omega
  have h201 : ¬ c = 201 := by omega
  have h200 : ¬ c = 200 := by omega
  have h204 : ¬ c = 204 := by omega
  cases het : ev.eventType <;>
    simp [request_registration, het, h0, h201, h200, h204,
      handle_registration_error_conditions, hns]

theorem registered_operation_drain_flagged (self_id : String) (shutdown : Bool)
    (resp : Nat → Nat → HttpOutcome) (error unregistered : Bool)
    (l : List ResourceEvent) (h : (shutdown || error || unregistered) = true) :
    registered_operation_drain self_id shutdown resp error unregistered l
      = { remaining := l, error := error, unregistered := unregistered, requests := [] } := by
  cases l <;> simp [registered_operation_drain, h]

theorem initial_registration_drain_flagged (self_id : String) (shutdown : Bool)
    (resp : Nat → Nat → HttpOutcome) (error registered : Bool)
    (l : List ResourceEvent) (h : (shutdown || error || registered) = true) :
    initial_registration_drain self_id shutdown resp error registered l
      = { self_id := self_id, node_registered := registered, error := error
          remaining := l, requests := [] } := by
  cases l <;> simp [initial_registration_drain, h]

theorem ver_le_update (ver : api_resource_versions) (t : NmosType) :
    ver_le ver (update_resource_version ver t) := by
  cases t <;> simp [update_resource_version, ver_le]

theorem ver_le_refl (ver : api_resource_versions) : ver_le ver ver := by
  simp [ver_le]

theorem ver_le_trans {a b c : api_resource_versions} (h1 : ver_le a b) (h2 : ver_le b c) :
    ver_le a c := by
  rcases h1 with ⟨x1, x2, x3, x4, x5, x6⟩
  rcases h2 with ⟨y1, y2, y3, y4, y5, y6⟩
  exact ⟨le_trans x1 y1, le_trans x2 y2, le_trans x3 y3,
    le_trans x4 y4, le_trans x5 y5, le_trans x6 y6⟩

theorem ver_le_ver_after (ver : api_resource_versions) (batch : List ResourceEvent) :
    ver_le ver (peer_to_peer_ver_after ver batch) := by
  induction batch generalizing ver with
  | nil => exact ver_le_refl ver
  | cons e rest ih =>
    exact ver_le_trans (ver_le_update ver (get_node_behaviour_event_id_type e).2)
      (by simpa [peer_to_peer_ver_after] using
        ih (update_resource_version ver (get_node_behaviour_event_id_type e).2))

theorem chain'_scanl_ver (l : List (List ResourceEvent)) :
    ∀ init, List.Chain' ver_le (List.scanl peer_to_peer_ver_after init l) := by
  induction l with
  | nil => intro init; simp
  | cons b bs ih =>
    intro init
    rw [List.scanl_cons, List.singleton_append, List.chain'_cons']
    refine ⟨fun y hy => ?_, ih _⟩
    have hhead : peer_to_peer_ver_after init b = y := by
      cases bs with
      | nil => simpa using hy
      | cons c cs =>
        rw [List.scanl_cons, List.singleton_append] at hy
        simpa using hy
    rw [← hhead]
    exact ver_le_ver_after init b

theorem initial_registration_drain_skip (s0 : String) (resp : Nat → Nat → HttpOutcome)
    (events : List ResourceEvent) :
    ∀ pre : List ResourceEvent,
      (∀ ev ∈ pre, ¬ ((get_node_behaviour_event_id_type ev).2 = NmosType.node
        ∧ (ev.eventType = ResourceEventType.added
          ∨ ev.eventType = ResourceEventType.unchanged))) →
      initial_registration_drain s0 false resp false false (pre ++ events)
        = initial_registration_drain s0 false resp false false events := by
  intro pre
  induction pre with
  | nil => intro _; rfl
  | cons a pre ih =>
    intro h
    have ha := h a (List.mem_cons_self a pre)
    rw [List.cons_append, initial_registration_drain]
    simp only [Bool.or_self, Bool.false_eq_true, if_false, ha]
    exact ih fun ev hev => h ev (List.mem_cons_of_mem a hev)

/-! ## Claim theorems -/

/-- C1: the drain guard used by INITIAL_REGISTRATION, REGISTERED_OPERATION and
PEER_TO_PEER atomically swaps the grain's event buffer with the (empty) local
buffer and bumps the watermark; when the drain stops with unprocessed local
events, the grain buffer afterwards is exactly the unprocessed local events
followed by the events that arrived during the drain, the watermark is bumped
again, no event is lost, and the surviving events keep the producer's FIFO
order (the local remainder is an unreordered prefix, the new arrivals an
unreordered suffix). -/
theorem c1_grain_guard_drain (g g' : Grain) (local_remaining : List ResourceEvent)
    (h : local_remaining ≠ []) :
    (node_behaviour_grain_guard_acquire [] g).1 = g.buffer
    ∧ (node_behaviour_grain_guard_acquire [] g).2.buffer = []
    ∧ g.updated < (node_behaviour_grain_guard_acquire [] g).2.updated
    ∧ (node_behaviour_grain_guard_release local_remaining g').buffer
        = local_remaining ++ g'.buffer
    ∧ g'.updated < (node_behaviour_grain_guard_release local_remaining g').updated
    ∧ (∀ e, e ∈ (node_behaviour_grain_guard_release local_remaining g').buffer
        ↔ e ∈ local_remaining ∨ e ∈ g'.buffer) := by
  have hlen : ¬ local_remaining.length = 0 := by
    simpa [List.length_eq_zero] using h
  refine ⟨rfl, rfl, by simp [node_behaviour_grain_guard_acquire, strictly_increasing_update], ?_, ?_, ?_⟩
  · simp [node_behaviour_grain_guard_release, hlen]
  · simp [node_behaviour_grain_guard_release, hlen, strictly_increasing_update]
  · intro e
    simp [node_behaviour_grain_guard_release, hlen]

theorem c1_grain_guard_drain_witness :
    let ev : ResourceEvent := { path := "nodes/n1", eventType := ResourceEventType.added, post := "n1data" }
    let ev2 : ResourceEvent := { path := "devices/d1", eventType := ResourceEventType.added, post := "d1data" }
    let g : Grain := { buffer := [ev], updated := 5 }
    let g' : Grain := { buffer := [ev2], updated := 6 }
    (node_behaviour_grain_guard_acquire [] g).1 = g.buffer
    ∧ (node_behaviour_grain_guard_acquire [] g).2.buffer = []
    ∧ g.updated < (node_behaviour_grain_guard_acquire [] g).2.updated
    ∧ (node_behaviour_grain_guard_release [ev] g').buffer = [ev] ++ g'.buffer
    ∧ g'.updated < (node_behaviour_grain_guard_release [ev] g').updated
    ∧ (∀ e, e ∈ (node_behaviour_grain_guard_release [ev] g').buffer
        ↔ e ∈ [ev] ∨ e ∈ g'.buffer) :=
  c1_grain_guard_drain _ _ _ (by simp)

/-- C8: for a sorted, non-empty registration service list, the selected
registry is the head, which carries the minimum priority; `pop` removes
exactly that entry; `std::multimap` insertion places a new entry after all
entries of less-or-equal priority (so equal priorities keep insertion order,
and an entry tying with the current top does not displace it); insertion
preserves sortedness, and any list built by insertions is sorted. -/
theorem c8_top_pop_priority (p : Nat) (u : String) (rest : RegistrationServices)
    (hs : SortedByPriority ((p, u) :: rest)) (entry : Nat × String)
    (l : RegistrationServices) :
    top_registration_service ((p, u) :: rest) = some u
    ∧ (∀ x ∈ (p, u) :: rest, p ≤ x.1)
    ∧ (p, u) :: pop_registration_service ((p, u) :: rest) = (p, u) :: rest
    ∧ multimap_insert entry l
        = l.takeWhile (fun q => decide (q.1 ≤ entry.1))
          ++ entry :: l.dropWhile (fun q => decide (q.1 ≤ entry.1))
    ∧ (SortedByPriority l → SortedByPriority (multimap_insert entry l))
    ∧ (entry.1 = p →
        top_registration_service (multimap_insert entry ((p, u) :: rest)) = some u)
    ∧ SortedByPriority (multimap_of_entries (entry :: l)) := by
  rw [SortedByPriority, List.pairwise_cons] at hs
  refine ⟨rfl, ?_, rfl, multimap_insert_stable entry l, multimap_insert_sorted entry l, ?_, multimap_of_entries_sorted _⟩
  · intro x hx
    rcases List.mem_cons.mp hx with hx | hx
    · exact hx ▸ le_refl p
    · exact hs.1 x hx
  · intro he
    rw [multimap_insert]
    simp [he, top_registration_service]

theorem c8_top_pop_priority_witness :
    SortedByPriority ((10, "r1") :: [(10, "r2"), (20, "r3")])
    ∧ (top_registration_service ((10, "r1") :: [(10, "r2"), (20, "r3")]) = some "r1"
      ∧ (∀ x ∈ (10, "r1") :: [(10, "r2"), (20, "r3")], 10 ≤ x.1)
      ∧ ((10 : Nat), "r1") :: pop_registration_service ((10, "r1") :: [(10, "r2"), (20, "r3")])
          = (10, "r1") :: [(10, "r2"), (20, "r3")]
      ∧ multimap_insert (10, "r4") [(10, "r2"), (20, "r3")]
          = [(10, "r2"), (20, "r3")].takeWhile (fun q => decide (q.1 ≤ (10, "r4").1))
            ++ (10, "r4") :: [(10, "r2"), (20, "r3")].dropWhile (fun q => decide (q.1 ≤ (10, "r4").1))
      ∧ (SortedByPriority [(10, "r2"), (20, "r3")]
          → SortedByPriority (multimap_insert (10, "r4") [(10, "r2"), (20, "r3")]))
      ∧ (((10 : Nat), "r4").1 = 10 →
          top_registration_service (multimap_insert (10, "r4") ((10, "r1") :: [(10, "r2"), (20, "r3")]))
            = some "r1")
      ∧ SortedByPriority (multimap_of_entries ((10, "r4") :: [(10, "r2"), (20, "r3")]))) :=
  ⟨by rw [SortedByPriority]; decide,
    c8_top_pop_priority 10 "r1" [(10, "r2"), (20, "r3")]
      (by rw [SortedByPriority]; decide) (10, "r4") [(10, "r2"), (20, "r3")]⟩

/-- C10: `top_registration_service` dereferences `begin()` without an
emptiness check, but both loop bodies break on an empty list before selecting,
so the `none` branch of the total embedding is unreachable: the iteration
steps of `registered_operation` and `initial_registration` never return
`none`. -/
theorem c10_top_total (self_id : String) (shutdown : Bool) (inp : RegOpInput)
    (s : RegOpState) (s' : InitRegState) :
    (registered_operation_iteration self_id shutdown inp s).isSome
    ∧ (initial_registration_iteration shutdown inp s').isSome := by
  constructor
  · rw [registered_operation_iteration]
    generalize (if s.error = true then pop_registration_service s.services else s.services)
      = services
    cases services with
    | nil => simp
    | cons a l =>
      have htop : top_registration_service (a :: l) = some a.2 := rfl
      rw [htop]
      repeat' first
      | simp
      | split
  · rw [initial_registration_iteration]
    generalize (if s'.error = true then pop_registration_service s'.services else s'.services)
      = services
    cases services with
    | nil => simp
    | cons a l =>
      have htop : top_registration_service (a :: l) = some a.2 := rfl
      rw [htop]
      split <;> simp

/-- C2 counterexample: a creation POST answered 200 is followed by the DELETE
and the retried POST, but when the retried POST returns 500 the continuation
throws `registration_service_exception`, so the event is retained in the
drain buffer (and the error flag set) — refuting "whatever status code the
retried POST returns, the event is considered consumed". -/
theorem c2_retry_5xx_counterexample :
    let ev : ResourceEvent :=
      { path := "nodes/n1", eventType := ResourceEventType.added, post := "nd" }
    let resp : Nat → HttpOutcome := fun j =>
      if j = 0 then HttpOutcome.status 200
      else if j = 1 then HttpOutcome.status 204
      else HttpOutcome.status 500
    (request_registration ev resp).trace
      = [ { method := HttpMethod.post, path := "/resource"
            body := some { type := NmosType.node, data := "nd" } },
          { method := HttpMethod.del, path := "/resource/nodes/n1", body := none },
          { method := HttpMethod.post, path := "/resource"
            body := some { type := NmosType.node, data := "nd" } } ]
    ∧ (request_registration ev resp).outcome = Except.error ()
    ∧ registered_operation_drain "n1" false (fun _ => resp) false false [ev]
        = { remaining := [ev], error := true, unregistered := false
            requests := (request_registration ev resp).trace } := by
  decide

/-- C2 (amended): for a creation (`added`/`sync`) whose POST gets 200, the
client issues exactly one DELETE of the same resource path; when the DELETE's
status is not a 5xx, exactly one retry of the original POST follows.  The
event is consumed only if the retried POST's status is also not a 5xx; a 5xx
on the retry raises `registration_service_error` and the event is retained in
the drain buffer. -/
theorem c2_creation_200_delete_retry
    (ev : ResourceEvent) (resp : Nat → HttpOutcome) (others : Nat → Nat → HttpOutcome)
    (self_id : String) (rest : List ResourceEvent) (sd : Nat)
    (hcreate : ev.eventType = ResourceEventType.added
      ∨ ev.eventType = ResourceEventType.unchanged)
    (h0 : resp 0 = HttpOutcome.status 200)
    (h1 : resp 1 = HttpOutcome.status sd)
    (hsd : is_server_error_status_code sd = false) :
    (request_registration ev resp).trace
      = [ { method := HttpMethod.post, path := "/resource"
            body := some { type := (get_node_behaviour_event_id_type ev).2, data := ev.post } },
          { method := HttpMethod.del, path := "/resource/" ++ ev.path, body := none },
          { method := HttpMethod.post, path := "/resource"
            body := some { type := (get_node_behaviour_event_id_type ev).2, data := ev.post } } ]
    ∧ (∀ s2, resp 2 = HttpOutcome.status s2 → is_server_error_status_code s2 = false →
        (request_registration ev resp).outcome = Except.ok ()
        ∧ registered_operation_drain self_id false (oracle_cons resp others) false false
            (ev :: rest)
          = { remaining := (registered_operation_drain self_id false others false false rest).remaining
              error := (registered_operation_drain self_id false others false false rest).error
              unregistered :=
                (registered_operation_drain self_id false others false false rest).unregistered
              requests := (request_registration ev resp).trace
                ++ (registered_operation_drain self_id false others false false rest).requests })
    ∧ (∀ s2, resp 2 = HttpOutcome.status s2 → is_server_error_status_code s2 = true →
        (request_registration ev resp).outcome = Except.error ()
        ∧ registered_operation_drain self_id false (oracle_cons resp others) false false
            (ev :: rest)
          = { remaining := ev :: rest, error := true, unregistered := false
              requests := (request_registration ev resp).trace }) := by
  have hsd204 : (if sd = 204 then Except.ok ()
      else handle_registration_error_conditions sd) = Except.ok () := by
    by_cases h204 : sd = 204
    · simp [h204]
    · simp [h204, handle_registration_error_conditions, hsd]
  have key : request_registration ev resp
      = { trace := [ { method := HttpMethod.post, path := "/resource",
                       body := some { type := (get_node_behaviour_event_id_type ev).2, data := ev.post } },
                     { method := HttpMethod.del, path := "/resource/" ++ ev.path, body := none },
                     { method := HttpMethod.post, path := "/resource",
                       body := some { type := (get_node_behaviour_event_id_type ev).2, data := ev.post } } ],
          outcome := (match resp 2 with
            | HttpOutcome.connectionFailure => Except.error ()
            | HttpOutcome.status s2 =>
              if s2 = 201 then Except.ok () else handle_registration_error_conditions s2) } := by
    rcases hcreate with h | h <;>
    · simp only [request_registration, h]
      simp [h0, h1, hsd204]
      cases resp 2 with
      | connectionFailure => simp
      | status c =>
        by_cases h201 : c = 201 <;> simp [h201]
  have hnotrem : ¬ ev.eventType = ResourceEventType.removed := by
    rcases hcreate with h | h <;> simp [h]
  have horacle0 : oracle_cons resp others 0 = resp := rfl
  have horacleS : (fun i => oracle_cons resp others (i + 1)) = others := by
    funext i
    simp [oracle_cons]
  refine ⟨by rw [key], ?_, ?_⟩
  · intro s2 h2 hs2
    have hout : (request_registration ev resp).outcome = Except.ok () := by
      rw [key]
      by_cases h201 : s2 = 201
      · simp [h2, h201]
      · simp [h2, h201, handle_registration_error_conditions, hs2]
    refine ⟨hout, ?_⟩
    rw [registered_operation_drain]
    simp [oracle_cons, hout, hnotrem]
  · intro s2 h2 hs2
    have hout : (request_registration ev resp).outcome = Except.error () := by
      rw [key]
      have h201 : ¬ s2 = 201 := by
        intro h
        rw [h] at hs2
        simp [is_server_error_status_code] at hs2
      simp [h2, h201, handle_registration_error_conditions, hs2]
    refine ⟨hout, ?_⟩
    rw [registered_operation_drain]
    simp [oracle_cons, hout]

theorem c2_creation_200_delete_retry_witness :
    let ev : ResourceEvent :=
      { path := "nodes/n1", eventType := ResourceEventType.added, post := "nd" }
    let resp : Nat → HttpOutcome := fun j =>
      if j = 0 then HttpOutcome.status 200
      else if j = 1 then HttpOutcome.status 204
      else HttpOutcome.status 201
    (ev.eventType = ResourceEventType.added ∨ ev.eventType = ResourceEventType.unchanged)
    ∧ resp 0 = HttpOutcome.status 200
    ∧ resp 1 = HttpOutcome.status 204
    ∧ is_server_error_status_code 204 = false
    ∧ ((request_registration ev resp).trace
      = [ { method := HttpMethod.post, path := "/resource"
            body := some { type := (get_node_behaviour_event_id_type ev).2, data := ev.post } },
          { method := HttpMethod.del, path := "/resource/" ++ ev.path, body := none },
          { method := HttpMethod.post, path := "/resource"
            body := some { type := (get_node_behaviour_event_id_type ev).2, data := ev.post } } ]
    ∧ (∀ s2, resp 2 = HttpOutcome.status s2 → is_server_error_status_code s2 = false →
        (request_registration ev resp).outcome = Except.ok ()
        ∧ registered_operation_drain "n1" false (oracle_cons resp (fun _ _ => HttpOutcome.status 200))
            false false (ev :: [])
          = { remaining := (registered_operation_drain "n1" false (fun _ _ => HttpOutcome.status 200)
                false false []).remaining
              error := (registered_operation_drain "n1" false (fun _ _ => HttpOutcome.status 200)
                false false []).error
              unregistered := (registered_operation_drain "n1" false (fun _ _ => HttpOutcome.status 200)
                false false []).unregistered
              requests := (request_registration ev resp).trace
                ++ (registered_operation_drain "n1" false (fun _ _ => HttpOutcome.status 200)
                  false false []).requests })
    ∧ (∀ s2, resp 2 = HttpOutcome.status s2 → is_server_error_status_code s2 = true →
        (request_registration ev resp).outcome = Except.error ()
        ∧ registered_operation_drain "n1" false (oracle_cons resp (fun _ _ => HttpOutcome.status 200))
            false false (ev :: [])
          = { remaining := ev :: [], error := true, unregistered := false
              requests := (request_registration ev resp).trace })) :=
  ⟨Or.inl rfl, rfl, rfl, by decide,
    c2_creation_200_delete_retry _ _ (fun _ _ => HttpOutcome.status 200) "n1" [] 204
      (Or.inl rfl) rfl rfl (by decide)⟩

/-- C4 counterexample: because `registration_service_error` is never cleared
once set, a single 5xx does not pop "exactly the currently selected registry":
starting with registries r1 and r2, one 5xx while draining on r1 makes every
subsequent iteration pop another registry (after a sync heartbeat on it that
succeeds with 200), until the list is empty — here both r1 and r2 are popped
although only r1 misbehaved, instead of leaving [(0, "r2")]. -/
theorem c4_error_cascade_counterexample :
    let ev : ResourceEvent :=
      { path := "devices/d1", eventType := ResourceEventType.modified, post := "dd" }
    let inp1 : RegOpInput :=
      { events := [ev], resp := fun _ _ => HttpOutcome.status 500
        heartbeat := HttpOutcome.status 200 }
    let inp2 : RegOpInput :=
      { events := [], resp := fun _ _ => HttpOutcome.status 200
        heartbeat := HttpOutcome.status 200 }
    let s0 : RegOpState :=
      { services := [(0, "r1"), (0, "r2")], client := none
        error := false, unregistered := false }
    registered_operation_loop "n1" false [inp1, inp2, inp2] s0
      = some ({ services := [], client := some "r2", error := true, unregistered := false },
          [Action.syncHeartbeat "n1", Action.startBackgroundHeartbeats,
           Action.httpRequest { method := HttpMethod.post, path := "/resource",
                                body := some { type := NmosType.device, data := "dd" } },
           Action.cancelBackgroundHeartbeats, Action.syncHeartbeat "n1",
           Action.cancelBackgroundHeartbeats, Action.cancelBackgroundHeartbeats])
    ∧ ([] : RegistrationServices) ≠ [(0, "r2")] := by
  decide

/-- C4 (amended): while draining, a 5xx, connection failure or timeout sets
`registration_service_error`, stops the drain with the event retained, and the
next iteration pops the currently selected (head) registry — but the error
flag is never cleared, so it stays set after the pop and every later iteration
pops another registry.  A 4xx is logged, the event is consumed, draining
continues and the iteration leaves the registry list unchanged, unless the
consumed event was the `removed` event for the node's own resource, in which
case `node_unregistered` is set and the drain stops. -/
theorem c4_error_mapping (self_id : String)
    (resp5 : Nat → Nat → HttpOutcome) (e5 : ResourceEvent) (rest5 : List ResourceEvent)
    (inp : RegOpInput) (s t : RegOpState)
    (resp4 : Nat → Nat → HttpOutcome) (e4 : ResourceEvent) (rest4 : List ResourceEvent) (c : Nat)
    (respD : Nat → Nat → HttpOutcome) (eD : ResourceEvent) (restD : List ResourceEvent) (cD : Nat)
    (h5 : server_side_error (resp5 0 0) = true)
    (herr : s.error = true)
    (h4 : resp4 0 0 = HttpOutcome.status c)
    (hc : is_client_error_status_code c = true)
    (hnotself : ¬ (self_id = (get_node_behaviour_event_id_type e4).1
      ∧ e4.eventType = ResourceEventType.removed))
    (hnoerr : t.error = false)
    (hD : respD 0 0 = HttpOutcome.status cD)
    (hcD : is_client_error_status_code cD = true)
    (hselfD : self_id = (get_node_behaviour_event_id_type eD).1)
    (hremD : eD.eventType = ResourceEventType.removed) :
    registered_operation_drain self_id false resp5 false false (e5 :: rest5)
      = { remaining := e5 :: rest5, error := true, unregistered := false
          requests := (request_registration e5 (resp5 0)).trace }
    ∧ Option.map (fun out => (out.1.services, out.1.error))
        (registered_operation_iteration self_id false inp s)
      = some (pop_registration_service s.services, true)
    ∧ registered_operation_drain self_id false resp4 false false (e4 :: rest4)
      = { remaining :=
            (registered_operation_drain self_id false (fun i => resp4 (i + 1)) false false rest4).remaining
          error :=
            (registered_operation_drain self_id false (fun i => resp4 (i + 1)) false false rest4).error
          unregistered :=
            (registered_operation_drain self_id false (fun i => resp4 (i + 1)) false false rest4).unregistered
          requests := (request_registration e4 (resp4 0)).trace
            ++ (registered_operation_drain self_id false (fun i => resp4 (i + 1)) false false rest4).requests }
    ∧ Option.map (fun out => out.1.services)
        (registered_operation_iteration self_id false inp t)
      = some t.services
    ∧ registered_operation_drain self_id false respD false false (eD :: restD)
      = { remaining := restD, error := false, unregistered := true
          requests := (request_registration eD (respD 0)).trace } := by
  refine ⟨?_, ?_, ?_, ?_, ?_⟩
  · have herr5 : (request_registration e5 (resp5 0)).outcome = Except.error () :=
      request_registration_first_server_error e5 (resp5 0) h5
    rw [registered_operation_drain]
    simp [herr5]
  · rw [registered_operation_iteration]
    simp only [herr, if_true]
    generalize pop_registration_service s.services = services
    cases services with
    | nil => simp
    | cons a l =>
      have htop : top_registration_service (a :: l) = some a.2 := rfl
      rw [htop]
      repeat' first
      | simp [herr, registered_operation_drain_flagged]
      | split
  · have hok : (request_registration e4 (resp4 0)).outcome = Except.ok () :=
      request_registration_first_client_error e4 (resp4 0) c hc h4
    have hns : (decide (self_id = (get_node_behaviour_event_id_type e4).1)
        && decide (e4.eventType = ResourceEventType.removed)) = false := by
      rcases not_and_or.mp hnotself with h | h <;> simp [h]
    rw [registered_operation_drain]
    simp [hok, hns]
  · rw [registered_operation_iteration]
    simp only [hnoerr]
    generalize hsv : t.services = services
    cases services with
    | nil => simp
    | cons a l =>
      have htop : top_registration_service (a :: l) = some a.2 := rfl
      simp only [if_false, Bool.false_eq_true, htop]
      repeat' first
      | simp
      | split
  · have hok : (request_registration eD (respD 0)).outcome = Except.ok () :=
      request_registration_first_client_error eD (respD 0) cD hcD hD
    rw [registered_operation_drain]
    simp [hok, hselfD, hremD, registered_operation_drain_flagged]

theorem c4_error_mapping_witness :
    let e5 : ResourceEvent :=
      { path := "devices/d1", eventType := ResourceEventType.modified, post := "dd" }
    let e4 : ResourceEvent :=
      { path := "flows/f1", eventType := ResourceEventType.added, post := "fd" }
    let eD : ResourceEvent :=
      { path := "nodes/n1", eventType := ResourceEventType.removed, post := "nd" }
    let resp5 : Nat → Nat → HttpOutcome := fun _ _ => HttpOutcome.status 503
    let resp4 : Nat → Nat → HttpOutcome := fun _ _ => HttpOutcome.status 400
    let respD : Nat → Nat → HttpOutcome := fun _ _ => HttpOutcome.status 404
    let inp : RegOpInput :=
      { events := [], resp := fun _ _ => HttpOutcome.status 200
        heartbeat := HttpOutcome.status 200 }
    let s : RegOpState :=
      { services := [(0, "r1"), (1, "r2")], client := some "r1"
        error := true, unregistered := false }
    let t : RegOpState :=
      { services := [(0, "r1"), (1, "r2")], client := some "r1"
        error := false, unregistered := false }
    server_side_error (resp5 0 0) = true
    ∧ s.error = true
    ∧ resp4 0 0 = HttpOutcome.status 400
    ∧ is_client_error_status_code 400 = true
    ∧ ¬ ("n1" = (get_node_behaviour_event_id_type e4).1
        ∧ e4.eventType = ResourceEventType.removed)
    ∧ t.error = false
    ∧ respD 0 0 = HttpOutcome.status 404
    ∧ is_client_error_status_code 404 = true
    ∧ "n1" = (get_node_behaviour_event_id_type eD).1
    ∧ eD.eventType = ResourceEventType.removed
    ∧ (registered_operation_drain "n1" false resp5 false false (e5 :: [])
        = { remaining := e5 :: [], error := true, unregistered := false
            requests := (request_registration e5 (resp5 0)).trace }
      ∧ Option.map (fun out => (out.1.services, out.1.error))
          (registered_operation_iteration "n1" false inp s)
        = some (pop_registration_service s.services, true)
      ∧ registered_operation_drain "n1" false resp4 false false (e4 :: [])
        = { remaining :=
              (registered_operation_drain "n1" false (fun i => resp4 (i + 1)) false false []).remaining
            error :=
              (registered_operation_drain "n1" false (fun i => resp4 (i + 1)) false false []).error
            unregistered :=
              (registered_operation_drain "n1" false (fun i => resp4 (i + 1)) false false []).unregistered
            requests := (request_registration e4 (resp4 0)).trace
              ++ (registered_operation_drain "n1" false (fun i => resp4 (i + 1)) false false []).requests }
      ∧ Option.map (fun out => out.1.services)
          (registered_operation_iteration "n1" false inp t)
        = some t.services
      ∧ registered_operation_drain "n1" false respD false false (eD :: [])
        = { remaining := [], error := false, unregistered := true
            requests := (request_registration eD (respD 0)).trace }) :=
  ⟨by decide, rfl, rfl, by decide, by decide, rfl, rfl, by decide, by decide, rfl,
    c4_error_mapping "n1" _ _ [] _ _ _ _ _ [] 400 _ _ [] 404
      (by decide) rfl rfl (by decide) (by decide) rfl rfl (by decide) (by decide) rfl⟩

/-- C3 counterexample: a failing discovery attempt (nothing discovered) sends
the thread to PEER_TO_PEER with the backoff unchanged at 4, not updated to
clamp(4 * 2, 1, 30) = 8 as the claim states; the clamp update instead happens
on a successful discovery, on the transition into INITIAL_REGISTRATION. -/
theorem c3_backoff_counterexample :
    let settings : Settings :=
      { discovery_backoff_min := 1, discovery_backoff_max := 30, discovery_backoff_factor := 2 }
    (initial_discovery_case settings 4 []).2 = (Mode.peer_to_peer_operation, 4)
    ∧ min (max settings.discovery_backoff_min (4 * settings.discovery_backoff_factor))
        settings.discovery_backoff_max = 8
    ∧ (4 : Rat) ≠ 8
    ∧ (initial_discovery_case settings 4 [(0, "r1")]).2 = (Mode.initial_registration, 8) := by
  have hclamp : min (max (1 : Rat) (4 * 2)) 30 = 8 := by
    rw [max_eq_right (by norm_num : (1 : Rat) ≤ 4 * 2),
      min_eq_left (by norm_num : (4 : Rat) * 2 ≤ 30)]
    norm_num
  exact ⟨rfl, hclamp, by norm_num, Prod.ext rfl hclamp⟩

/-- C3 (amended): the agent waits `backoff` seconds before each
INITIAL_DISCOVERY attempt (`backoff` starts at 0, and a zero backoff skips the
wait); after each SUCCESSFUL discovery attempt — on the transition into
INITIAL_REGISTRATION — `backoff` is updated to
clamp(backoff * discovery_backoff_factor, discovery_backoff_min,
discovery_backoff_max), while a failing (empty) discovery leaves it unchanged
and enters PEER_TO_PEER; after a successful registration (the agent enters
REGISTERED_OPERATION) `backoff` is reset to 0, and a failed registration
returns to INITIAL_DISCOVERY with it unchanged. -/
theorem c3_backoff_discipline (settings : Settings) (backoff : Rat)
    (discovered services_after : RegistrationServices)
    (hne : discovered ≠ []) (hne2 : services_after ≠ []) :
    (initial_discovery_case settings backoff discovered).1 = backoff
    ∧ (initial_discovery_case settings backoff discovered).2
        = (Mode.initial_registration,
            min (max settings.discovery_backoff_min (backoff * settings.discovery_backoff_factor))
              settings.discovery_backoff_max)
    ∧ (initial_discovery_case settings backoff []).2 = (Mode.peer_to_peer_operation, backoff)
    ∧ initial_registration_case backoff services_after = (Mode.registered_operation, 0)
    ∧ initial_registration_case backoff [] = (Mode.initial_discovery, backoff) := by
  have hd : discovered.isEmpty = false := by
    cases discovered with
    | nil => exact absurd rfl hne
    | cons a l => rfl
  have hs : services_after.isEmpty = false := by
    cases services_after with
    | nil => exact absurd rfl hne2
    | cons a l => rfl
  refine ⟨?_, ?_, ?_, ?_, ?_⟩
  · by_cases hb : backoff = 0 <;> simp [initial_discovery_case, hb, hne]
  · simp [initial_discovery_case, hd, hne]
  · simp [initial_discovery_case]
  · simp [initial_registration_case, hs, hne2]
  · simp [initial_registration_case]

theorem c3_backoff_discipline_witness :
    let settings : Settings :=
      { discovery_backoff_min := 1, discovery_backoff_max := 30, discovery_backoff_factor := 2 }
    ([((0 : Nat), "r1")] ≠ ([] : RegistrationServices))
    ∧ ([((5 : Nat), "r2")] ≠ ([] : RegistrationServices))
    ∧ ((initial_discovery_case settings 4 [(0, "r1")]).1 = 4
      ∧ (initial_discovery_case settings 4 [(0, "r1")]).2
          = (Mode.initial_registration,
              min (max settings.discovery_backoff_min (4 * settings.discovery_backoff_factor))
                settings.discovery_backoff_max)
      ∧ (initial_discovery_case settings 4 []).2 = (Mode.peer_to_peer_operation, 4)
      ∧ initial_registration_case 4 [(5, "r2")] = (Mode.registered_operation, 0)
      ∧ initial_registration_case 4 [] = (Mode.initial_discovery, 4)) :=
  ⟨by simp, by simp,
    c3_backoff_discipline _ 4 [(0, "r1")] [(5, "r2")] (by simp) (by simp)⟩

/-- C5 counterexample: `api_resource_versions ver;` is a local of each
`peer_to_peer_operation` invocation, so the counters restart at zero when
peer-to-peer mode is re-entered: over a process with two peer-to-peer sessions
— the first seeing one node event, the second none — the publication sequence
is [0-counters, self = 1, 0-counters], and the last publication is not
componentwise ≥ the previous one, refuting monotonicity across the process
lifetime. -/
theorem c5_reentry_counterexample :
    let nodeAdd : ResourceEvent :=
      { path := "nodes/n1", eventType := ResourceEventType.added, post := "nd" }
    let v0 : api_resource_versions :=
      { self := 0, devices := 0, sources := 0, flows := 0, senders := 0, receivers := 0 }
    let v1 : api_resource_versions :=
      { self := 1, devices := 0, sources := 0, flows := 0, senders := 0, receivers := 0 }
    process_publications [[[nodeAdd]], []] = [v0, v1, v0]
    ∧ ¬ ver_le v1 v0
    ∧ ¬ List.Chain' ver_le (process_publications [[[nodeAdd]], []]) := by
  refine ⟨by decide, by decide, ?_⟩
  intro h
  have : process_publications
      [[[{ path := "nodes/n1", eventType := ResourceEventType.added, post := "nd" }]], []]
      = [ { self := 0, devices := 0, sources := 0, flows := 0, senders := 0, receivers := 0 },
          { self := 1, devices := 0, sources := 0, flows := 0, senders := 0, receivers := 0 },
          { self := 0, devices := 0, sources := 0, flows := 0, senders := 0, receivers := 0 } ] := by
    decide
  rw [this] at h
  exact absurd (List.chain'_cons.mp (List.chain'_cons.mp h).2).1 (by decide)

/-- C5 (amended): within a single `peer_to_peer_operation` invocation the
per-type version counters are monotonically non-decreasing —
`update_resource_version` only increments, folding a drained batch only grows
the counters, and the TXT-record publication sequence of one session is
componentwise non-decreasing.  (Across sessions the counters restart at zero,
see the counterexample.) -/
theorem c5_session_monotonicity :
    (∀ (ver : api_resource_versions) (t : NmosType),
      ver_le ver (update_resource_version ver t))
    ∧ (∀ (ver : api_resource_versions) (batch : List ResourceEvent),
      ver_le ver (peer_to_peer_ver_after ver batch))
    ∧ (∀ batches : List (List ResourceEvent),
      List.Chain' ver_le (peer_to_peer_publications batches)) :=
  ⟨ver_le_update, ver_le_ver_after, fun batches => chain'_scanl_ver batches _⟩

/-- C6 counterexample: a successful DELETE of the node's own resource (204 on
the `removed` event whose id equals `self_id`) sets `node_unregistered`, but
the thread's mode switch then sends REGISTERED_OPERATION with a non-empty
registry list to INITIAL_REGISTRATION, not to INITIAL_DISCOVERY as the claim
states (and with an empty list to REDISCOVERY; no edge leads to
INITIAL_DISCOVERY from REGISTERED_OPERATION). -/
theorem c6_transition_counterexample :
    let eD : ResourceEvent :=
      { path := "nodes/n1", eventType := ResourceEventType.removed, post := "nd" }
    let respD : Nat → Nat → HttpOutcome := fun _ _ => HttpOutcome.status 204
    (registered_operation_drain "n1" false respD false false [eD]).unregistered = true
    ∧ node_behaviour_transition Mode.registered_operation true = Mode.initial_registration
    ∧ node_behaviour_transition Mode.registered_operation false = Mode.rediscovery
    ∧ Mode.initial_registration ≠ Mode.initial_discovery := by
  decide

/-- C6 (amended): when the agent in REGISTERED_OPERATION successfully DELETEs
its own node resource (the `removed` event with id `self_id` gets a 204), the
drain sets `node_unregistered` and stops; the loop then breaks and the
background heartbeat task is cancelled; and the agent re-enters
INITIAL_REGISTRATION (the registry list being non-empty), not
INITIAL_DISCOVERY. -/
theorem c6_graceful_unregister (self_id : String) (eD : ResourceEvent)
    (restD : List ResourceEvent) (respD : Nat → Nat → HttpOutcome)
    (inp : RegOpInput) (s : RegOpState)
    (hself : self_id = (get_node_behaviour_event_id_type eD).1)
    (hrem : eD.eventType = ResourceEventType.removed)
    (hresp : respD 0 0 = HttpOutcome.status 204)
    (hunreg : s.unregistered = true) (herr : s.error = false) :
    (request_registration eD (respD 0)).trace
      = [ { method := HttpMethod.del, path := "/resource/" ++ eD.path, body := none } ]
    ∧ (request_registration eD (respD 0)).outcome = Except.ok ()
    ∧ registered_operation_drain self_id false respD false false (eD :: restD)
      = { remaining := restD, error := false, unregistered := true
          requests := [ { method := HttpMethod.del, path := "/resource/" ++ eD.path, body := none } ] }
    ∧ registered_operation_loop self_id false [inp] s
      = some (s, [Action.cancelBackgroundHeartbeats])
    ∧ node_behaviour_transition Mode.registered_operation true = Mode.initial_registration := by
  have hkey : request_registration eD (respD 0)
      = { trace := [ { method := HttpMethod.del, path := "/resource/" ++ eD.path, body := none } ]
          outcome := Except.ok () } := by
    have hnc : ¬ (eD.eventType = ResourceEventType.added
        ∨ eD.eventType = ResourceEventType.unchanged) := by
      simp [hrem]
    have hnm : ¬ eD.eventType = ResourceEventType.modified := by simp [hrem]
    simp [request_registration, hnc, hnm, hrem, hresp]
  refine ⟨by rw [hkey], by rw [hkey], ?_, ?_, rfl⟩
  · rw [registered_operation_drain]
    simp [hkey, hself, hrem, registered_operation_drain_flagged]
  · obtain ⟨sv, cl, er, un⟩ := s
    simp only at herr hunreg
    subst herr
    subst hunreg
    rw [registered_operation_loop, registered_operation_iteration]
    simp [registered_operation_loop]

theorem c6_graceful_unregister_witness :
    let eD : ResourceEvent :=
      { path := "nodes/n1", eventType := ResourceEventType.removed, post := "nd" }
    let respD : Nat → Nat → HttpOutcome := fun _ _ => HttpOutcome.status 204
    let inp : RegOpInput :=
      { events := [], resp := fun _ _ => HttpOutcome.status 200
        heartbeat := HttpOutcome.status 200 }
    let s : RegOpState :=
      { services := [(0, "r1")], client := some "r1", error := false, unregistered := true }
    ("n1" = (get_node_behaviour_event_id_type eD).1
      ∧ eD.eventType = ResourceEventType.removed
      ∧ respD 0 0 = HttpOutcome.status 204
      ∧ s.unregistered = true ∧ s.error = false)
    ∧ ((request_registration eD (respD 0)).trace
        = [ { method := HttpMethod.del, path := "/resource/" ++ eD.path, body := none } ]
      ∧ (request_registration eD (respD 0)).outcome = Except.ok ()
      ∧ registered_operation_drain "n1" false respD false false (eD :: [])
        = { remaining := [], error := false, unregistered := true
            requests := [ { method := HttpMethod.del, path := "/resource/" ++ eD.path, body := none } ] }
      ∧ registered_operation_loop "n1" false [inp] s
        = some (s, [Action.cancelBackgroundHeartbeats])
      ∧ node_behaviour_transition Mode.registered_operation true = Mode.initial_registration) :=
  ⟨⟨by decide, rfl, rfl, rfl, rfl⟩,
    c6_graceful_unregister "n1"
      { path := "nodes/n1", eventType := ResourceEventType.removed, post := "nd" } []
      (fun _ _ => HttpOutcome.status 204)
      { events := [], resp := fun _ _ => HttpOutcome.status 200
        heartbeat := HttpOutcome.status 200 }
      { services := [(0, "r1")], client := some "r1", error := false, unregistered := true }
      (by decide) rfl rfl rfl rfl⟩

/-- C7 counterexample: after selecting a new registry, the sync heartbeat
returned 400 — not 200 — yet the periodic background heartbeat task is still
started (`update_node_health` treats every status other than 404 and 5xx as
success), refuting "started only after that heartbeat returns 200". -/
theorem c7_background_start_counterexample :
    let inp : RegOpInput :=
      { events := [], resp := fun _ _ => HttpOutcome.status 200
        heartbeat := HttpOutcome.status 400 }
    let s : RegOpState :=
      { services := [(0, "r1")], client := none, error := false, unregistered := false }
    registered_operation_iteration "n1" false inp s
      = some ({ services := [(0, "r1")], client := some "r1"
                error := false, unregistered := false },
          [Action.syncHeartbeat "n1", Action.startBackgroundHeartbeats], false)
    ∧ HttpOutcome.status 400 ≠ HttpOutcome.status 200 := by
  decide

/-- C7 (amended): whenever REGISTERED_OPERATION creates a client for a new
base URI, its first action on that registry is the single synchronous
heartbeat; the background heartbeat task is started, and grain events are
dispatched, only after that heartbeat reports the node registered — which the
code takes to be a 200 or any other status that is neither 404 nor 5xx nor a
connection failure; on a fault or a 404 nothing but the heartbeat reaches the
new registry. -/
theorem c7_heartbeat_first (self_id : String) (inp : RegOpInput) (s : RegOpState)
    (p : Nat) (u : String) (rest : RegistrationServices)
    (hsv : s.services = (p, u) :: rest)
    (hnew : ¬ s.client = some u)
    (herr : s.error = false) (hunreg : s.unregistered = false) :
    (∀ e, update_node_health inp.heartbeat = Except.error e →
      registered_operation_iteration self_id false inp s
        = some ({ services := s.services, client := some u, error := true, unregistered := false },
            [Action.syncHeartbeat self_id], false))
    ∧ (update_node_health inp.heartbeat = Except.ok false →
      registered_operation_iteration self_id false inp s
        = some ({ services := s.services, client := some u, error := false, unregistered := true },
            [Action.syncHeartbeat self_id], false))
    ∧ (update_node_health inp.heartbeat = Except.ok true →
      registered_operation_iteration self_id false inp s
        = some ({ services := s.services, client := some u
                  error := (registered_operation_drain self_id false inp.resp false false inp.events).error
                  unregistered :=
                    (registered_operation_drain self_id false inp.resp false false inp.events).unregistered },
            Action.syncHeartbeat self_id :: Action.startBackgroundHeartbeats
              :: (registered_operation_drain self_id false inp.resp false false inp.events).requests.map
                Action.httpRequest,
            false))
    ∧ update_node_health (HttpOutcome.status 200) = Except.ok true
    ∧ update_node_health (HttpOutcome.status 404) = Except.ok false
    ∧ (∀ c, ¬ c = 200 → ¬ c = 404 → is_server_error_status_code c = false →
        update_node_health (HttpOutcome.status c) = Except.ok true)
    ∧ (∀ c, is_server_error_status_code c = true →
        update_node_health (HttpOutcome.status c) = Except.error ())
    ∧ update_node_health HttpOutcome.connectionFailure = Except.error () := by
  have htop : top_registration_service ((p, u) :: rest) = some u := rfl
  refine ⟨?_, ?_, ?_, rfl, rfl, ?_, ?_, rfl⟩
  · intro e hnh
    rw [registered_operation_iteration]
    simp [herr, hunreg, hsv, htop, hnew, hnh]
  · intro hnh
    rw [registered_operation_iteration]
    simp [herr, hunreg, hsv, htop, hnew, hnh]
  · intro hnh
    rw [registered_operation_iteration]
    simp [herr, hunreg, hsv, htop, hnew, hnh]
  · intro c h200 h404 hns
    simp [update_node_health, h200, h404, handle_registration_error_conditions, hns]
  · intro c hs5
    simp only [is_server_error_status_code, Bool.and_eq_true, decide_eq_true_eq] at hs5
    have h200 : ¬ c = 200 := by omega
    have h404 : ¬ c = 404 := by omega
    have hs5' : is_server_error_status_code c = true := by
      simp only [is_server_error_status_code, Bool.and_eq_true, decide_eq_true_eq]
      omega
    simp [update_node_health, h200, h404, handle_registration_error_conditions, hs5']

theorem c7_heartbeat_first_witness :
    let inp : RegOpInput :=
      { events := [], resp := fun _ _ => HttpOutcome.status 200
        heartbeat := HttpOutcome.status 200 }
    let s : RegOpState :=
      { services := [(0, "r1")], client := none, error := false, unregistered := false }
    (s.services = (0, "r1") :: [] ∧ ¬ s.client = some "r1"
      ∧ s.error = false ∧ s.unregistered = false)
    ∧ ((∀ e, update_node_health inp.heartbeat = Except.error e →
        registered_operation_iteration "n1" false inp s
          = some ({ services := s.services, client := some "r1", error := true, unregistered := false },
              [Action.syncHeartbeat "n1"], false))
      ∧ (update_node_health inp.heartbeat = Except.ok false →
        registered_operation_iteration "n1" false inp s
          = some ({ services := s.services, client := some "r1", error := false, unregistered := true },
              [Action.syncHeartbeat "n1"], false))
      ∧ (update_node_health inp.heartbeat = Except.ok true →
        registered_operation_iteration "n1" false inp s
          = some ({ services := s.services, client := some "r1"
                    error := (registered_operation_drain "n1" false inp.resp false false inp.events).error
                    unregistered :=
                      (registered_operation_drain "n1" false inp.resp false false inp.events).unregistered },
              Action.syncHeartbeat "n1" :: Action.startBackgroundHeartbeats
                :: (registered_operation_drain "n1" false inp.resp false false inp.events).requests.map
                  Action.httpRequest,
              false))
      ∧ update_node_health (HttpOutcome.status 200) = Except.ok true
      ∧ update_node_health (HttpOutcome.status 404) = Except.ok false
      ∧ (∀ c, ¬ c = 200 → ¬ c = 404 → is_server_error_status_code c = false →
          update_node_health (HttpOutcome.status c) = Except.ok true)
      ∧ (∀ c, is_server_error_status_code c = true →
          update_node_health (HttpOutcome.status c) = Except.error ())
      ∧ update_node_health HttpOutcome.connectionFailure = Except.error ()) :=
  ⟨⟨rfl, by decide, rfl, rfl⟩,
    c7_heartbeat_first "n1" _ _ 0 "r1" [] rfl (by decide) rfl rfl⟩

/-- C9 counterexample: `self_id` is re-latched on every INITIAL_REGISTRATION
pass, and such a pass is reachable without a restart (a 404 heartbeat sends
REGISTERED_OPERATION back to INITIAL_REGISTRATION): a first pass latches
`self_id := "n1"`; a second pass whose first node event carries id "n2"
overwrites it — so `self_id` is not "never modified again until the agent
restarts". -/
theorem c9_relatch_counterexample :
    let e1 : ResourceEvent :=
      { path := "nodes/n1", eventType := ResourceEventType.added, post := "a" }
    let e2 : ResourceEvent :=
      { path := "nodes/n2", eventType := ResourceEventType.added, post := "b" }
    let ok : Nat → Nat → HttpOutcome := fun _ _ => HttpOutcome.status 201
    (initial_registration_drain "" false ok false false [e1]).self_id = "n1"
    ∧ (initial_registration_drain "" false ok false false [e1]).node_registered = true
    ∧ node_behaviour_transition Mode.registered_operation true = Mode.initial_registration
    ∧ (initial_registration_drain "n1" false ok false false [e2]).self_id = "n2"
    ∧ "n2" ≠ "n1" := by
  decide

/-- C9 (amended): each INITIAL_REGISTRATION pass discards drained events until
the first `added`/`sync` event whose resource type is `node` (a drain over
only non-matching events discards them all, issues no request and leaves
`self_id` unchanged); on the first matching event it latches `self_id` to that
event's id and issues that event's requests first — whether the request
succeeds (event consumed, `node_registered` set) or faults (event retained,
`registration_service_error` set), `self_id` holds the latched id.
REGISTERED_OPERATION takes `self_id` by const reference and only reads it, but
a later INITIAL_REGISTRATION pass (reachable after a 404 heartbeat without a
restart) re-latches it. -/
theorem c9_self_id_latch (s0 : String) (resp : Nat → Nat → HttpOutcome)
    (events pre : List ResourceEvent) (e : ResourceEvent) (rest : List ResourceEvent)
    (hpre : ∀ ev ∈ pre, ¬ ((get_node_behaviour_event_id_type ev).2 = NmosType.node
      ∧ (ev.eventType = ResourceEventType.added
        ∨ ev.eventType = ResourceEventType.unchanged)))
    (hm : (get_node_behaviour_event_id_type e).2 = NmosType.node
      ∧ (e.eventType = ResourceEventType.added
        ∨ e.eventType = ResourceEventType.unchanged)) :
    initial_registration_drain s0 false resp false false (pre ++ events)
      = initial_registration_drain s0 false resp false false events
    ∧ initial_registration_drain s0 false resp false false pre
      = { self_id := s0, node_registered := false, error := false
          remaining := [], requests := [] }
    ∧ ((request_registration e (resp 0)).outcome = Except.ok () →
        initial_registration_drain s0 false resp false false (e :: rest)
          = { self_id := (get_node_behaviour_event_id_type e).1, node_registered := true
              error := false, remaining := rest
              requests := (request_registration e (resp 0)).trace })
    ∧ ((request_registration e (resp 0)).outcome = Except.error () →
        initial_registration_drain s0 false resp false false (e :: rest)
          = { self_id := (get_node_behaviour_event_id_type e).1, node_registered := false
              error := true, remaining := e :: rest
              requests := (request_registration e (resp 0)).trace }) := by
  refine ⟨initial_registration_drain_skip s0 resp events pre hpre, ?_, ?_, ?_⟩
  · have h := initial_registration_drain_skip s0 resp [] pre hpre
    rw [List.append_nil] at h
    exact h
  · intro ho
    rw [initial_registration_drain]
    simp [hm, ho, initial_registration_drain_flagged]
  · intro ho
    rw [initial_registration_drain]
    simp [hm, ho]

theorem c9_self_id_latch_witness :
    let ed : ResourceEvent :=
      { path := "devices/d1", eventType := ResourceEventType.added, post := "dd" }
    let e : ResourceEvent :=
      { path := "nodes/n1", eventType := ResourceEventType.unchanged, post := "nd" }
    let ok : Nat → Nat → HttpOutcome := fun _ _ => HttpOutcome.status 201
    (∀ ev ∈ [ed], ¬ ((get_node_behaviour_event_id_type ev).2 = NmosType.node
      ∧ (ev.eventType = ResourceEventType.added
        ∨ ev.eventType = ResourceEventType.unchanged)))
    ∧ ((get_node_behaviour_event_id_type e).2 = NmosType.node
      ∧ (e.eventType = ResourceEventType.added
        ∨ e.eventType = ResourceEventType.unchanged))
    ∧ (initial_registration_drain "" false ok false false ([ed] ++ [e])
        = initial_registration_drain "" false ok false false [e]
      ∧ initial_registration_drain "" false ok false false [ed]
        = { self_id := "", node_registered := false, error := false
            remaining := [], requests := [] }
      ∧ ((request_registration e (ok 0)).outcome = Except.ok () →
          initial_registration_drain "" false ok false false (e :: [])
            = { self_id := (get_node_behaviour_event_id_type e).1, node_registered := true
                error := false, remaining := []
                requests := (request_registration e (ok 0)).trace })
      ∧ ((request_registration e (ok 0)).outcome = Except.error () →
          initial_registration_drain "" false ok false false (e :: [])
            = { self_id := (get_node_behaviour_event_id_type e).1, node_registered := false
                error := true, remaining := e :: []
                requests := (request_registration e (ok 0)).trace })) :=
  ⟨by decide, by decide,
    c9_self_id_latch "" (fun _ _ => HttpOutcome.status 201) [_] [_] _ []
      (by decide) (by decide)⟩

end Nmos
